import Mathlib

/-!
Verification of the deployment-request translation and dispatch layer of the
repository (two FastAPI modules: `fastapi_k8s_deploy.py` and `fastapi2.py`).

The Python handlers are shallowly embedded as total Lean functions.  External
collaborators (the `base64` decoder, the Kubernetes SDK calls, the boto3 ECS
client calls) are modelled as an explicit environment record supplying the
outcome of each outbound call: `Except PyExn α` stands for "the call either
returns a value or raises a Python exception".  Each handler additionally
returns a trace recording which platform clients were constructed, which
platform calls were issued and with which request objects, so that sequencing
and "no call was made" properties can be stated.
-/

namespace AADeploy

/-- A Python exception as discriminated by the handlers' `except` clauses:
pydantic `ValidationError`, kubernetes `ApiException` (carrying `reason`),
botocore `BotoCoreError`/`ClientError`, or any other `Exception`.  The
carried string is `str(e)` (for `ApiException`, `e.reason`). -/
inductive PyExn where
  | validationError (msg : String)
  | apiException (reason : String)
  | botoError (msg : String)
  | other (msg : String)
deriving Repr, DecidableEq

/-- `str(e)` of the exception. -/
def PyExn.msg : PyExn → String
  | .validationError m => m
  | .apiException m => m
  | .botoError m => m
  | .other m => m

/-- The handler's result as seen by the HTTP layer: a 200 JSON body, or an
`HTTPException(status_code, detail)` converted by FastAPI into a JSON error
response with a `detail` string. -/
inductive HandlerOutcome where
  | ok (body : List (String × String))
  | httpError (status : Nat) (detail : String)
deriving Repr, DecidableEq

/-- A pydantic field-validation failure: the offending field and a reason. -/
structure FieldError where
  field : String
  reason : String
deriving Repr, DecidableEq

/-! ### Kubernetes client object model (shared by both modules)

The fragment of the `kubernetes.client` object model that the two modules
construct.  Label sets are association lists of string pairs. -/

structure V1ContainerPort where
  container_port : Int
deriving Repr, DecidableEq

structure V1Container where
  name : String
  image : String
  ports : List V1ContainerPort
deriving Repr, DecidableEq

structure V1PodSpec where
  containers : List V1Container
deriving Repr, DecidableEq

structure V1ObjectMeta where
  name : Option String
  labels : Option (List (String × String))
deriving Repr, DecidableEq

structure V1PodTemplateSpec where
  metadata : V1ObjectMeta
  spec : V1PodSpec
deriving Repr, DecidableEq

/-- The selector dict passed literally in both modules:
`{"matchLabels": {...}}`. -/
structure LabelSelector where
  matchLabels : List (String × String)
deriving Repr, DecidableEq

structure V1DeploymentSpec where
  replicas : Int
  selector : LabelSelector
  template : V1PodTemplateSpec
deriving Repr, DecidableEq

structure V1Deployment where
  metadata : V1ObjectMeta
  spec : V1DeploymentSpec
deriving Repr, DecidableEq

/-! ### ECS request object model (shared) -/

structure PortMapping where
  containerPort : Int
  hostPort : Int
  protocol : String
deriving Repr, DecidableEq

structure ContainerDefinition where
  name : String
  image : String
  portMappings : List PortMapping
deriving Repr, DecidableEq

/-- The keyword arguments of `ecs_client.register_task_definition`. -/
structure RegisterTaskDefinitionRequest where
  family : String
  containerDefinitions : List ContainerDefinition
deriving Repr, DecidableEq

/-- The `taskDefinition` entry of the response returned by
`register_task_definition`; the handler reads its `taskDefinitionArn`. -/
structure TaskDefinitionInfo where
  taskDefinitionArn : String
deriving Repr, DecidableEq

structure RegisterTaskDefinitionResponse where
  taskDefinition : TaskDefinitionInfo
deriving Repr, DecidableEq

structure AwsVpcConfiguration where
  subnets : List String
  assignPublicIp : String
deriving Repr, DecidableEq

structure NetworkConfiguration where
  awsvpcConfiguration : AwsVpcConfiguration
deriving Repr, DecidableEq

/-- The keyword arguments of `ecs_client.create_service`. -/
structure CreateServiceRequest where
  cluster : String
  serviceName : String
  taskDefinition : String
  desiredCount : Int
  launchType : String
  networkConfiguration : NetworkConfiguration
deriving Repr, DecidableEq

/-- `containerOverrides` entry of a `run_task` call (`fastapi2.py`). -/
structure ContainerOverride where
  name : String
  image : String
  portMappings : List PortMapping
deriving Repr, DecidableEq

structure RunTaskOverrides where
  containerOverrides : List ContainerOverride
deriving Repr, DecidableEq

/-- The keyword arguments of `ecs_client.run_task` (`fastapi2.py`). -/
structure RunTaskRequest where
  cluster : String
  taskDefinition : String
  launchType : String
  overrides : RunTaskOverrides
deriving Repr, DecidableEq

/-! ### fastapi_k8s_deploy.py: request models and pydantic validation -/

structure KubernetesCredentials where
  kubeconfig : String
deriving Repr, DecidableEq

/-- `DeploymentDetails` of fastapi_k8s_deploy.py.  `container_image_url` is
declared `HttpUrl` and `container_port` is `Field(..., gt=0, lt=65536)`;
those constraints are enforced by `parseDeploymentRequest` below. -/
structure DeploymentDetails where
  cluster_name : String
  region : String
  container_image_url : String
  container_port : Int
deriving Repr, DecidableEq

structure DeploymentRequest where
  credentials : KubernetesCredentials
  details : DeploymentDetails
deriving Repr, DecidableEq

structure AWSCredentials where
  access_key : String
  secret_key : String
deriving Repr, DecidableEq

/-- `ECSDeploymentDetails` of fastapi_k8s_deploy.py, with the same `HttpUrl`
and port `Field(gt=0, lt=65536)` constraints. -/
structure ECSDeploymentDetails where
  cluster_name : String
  service_name : String
  task_definition_name : String
  region : String
  container_image_url : String
  container_port : Int
deriving Repr, DecidableEq

structure ECSDeploymentRequest where
  credentials : AWSCredentials
  details : ECSDeploymentDetails
deriving Repr, DecidableEq

/-- Whether the first list begins with the second. -/
def listStartsWith : List Char → List Char → Bool
  | _, [] => true
  | [], _ :: _ => false
  | c :: cs, p :: ps => c == p && listStartsWith cs ps

/-- Coarse model of pydantic `HttpUrl` validation: the value must carry an
http or https scheme followed by a host.  (The library check is stricter;
no claim depends on its finer points.) -/
def httpUrlValid (s : String) : Bool :=
  (listStartsWith s.data ("http://".data) && decide (7 < s.data.length)) ||
    (listStartsWith s.data ("https://".data) && decide (8 < s.data.length))

/-- The `Field(..., gt=0, lt=65536)` constraint on `container_port`. -/
def portFieldValid (p : Int) : Bool :=
  0 < p && p < 65536

/-- Pydantic validation of `DeploymentDetails`, collecting every field
violation (pydantic reports all failures at once). -/
def validateDeploymentDetails (d : DeploymentDetails) : List FieldError :=
  (if httpUrlValid d.container_image_url then []
   else [⟨"container_image_url", "invalid or missing URL scheme"⟩]) ++
  (if portFieldValid d.container_port then []
   else [⟨"container_port", "ensure this value is greater than 0 and less than 65536"⟩])

/-- FastAPI request parsing of a `/k8s-deploy` body in fastapi_k8s_deploy.py:
pydantic validates the `DeploymentRequest` model before the handler runs. -/
def parseDeploymentRequest (raw : DeploymentRequest) :
    Except (List FieldError) DeploymentRequest :=
  match validateDeploymentDetails raw.details with
  | [] => Except.ok raw
  | errs => Except.error errs

/-- Pydantic validation of `ECSDeploymentDetails`. -/
def validateECSDeploymentDetails (d : ECSDeploymentDetails) : List FieldError :=
  (if httpUrlValid d.container_image_url then []
   else [⟨"container_image_url", "invalid or missing URL scheme"⟩]) ++
  (if portFieldValid d.container_port then []
   else [⟨"container_port", "ensure this value is greater than 0 and less than 65536"⟩])

/-- FastAPI request parsing of an `/ecs-deploy` body in fastapi_k8s_deploy.py. -/
def parseECSDeploymentRequest (raw : ECSDeploymentRequest) :
    Except (List FieldError) ECSDeploymentRequest :=
  match validateECSDeploymentDetails raw.details with
  | [] => Except.ok raw
  | errs => Except.error errs

/-- Render a pydantic error list into the `detail` of FastAPI's automatic
422 validation response. -/
def renderFieldErrors (errs : List FieldError) : String :=
  String.intercalate "; " (errs.map (fun e => e.field ++ ": " ++ e.reason))

/-! ### fastapi_k8s_deploy.py: the /k8s-deploy handler -/

/-- Outcomes of the external calls made by `deploy_to_k8s`, in source order:
`base64.b64decode(...).decode` (returns the kubeconfig text or raises),
`config.load_kube_config_from_dict`, and
`api_instance.create_namespaced_deployment`. -/
structure K8sEnv where
  decodeResult : Except PyExn String
  loadConfigResult : Except PyExn Unit
  createDeploymentResult : Except PyExn Unit

/-- Observable effects of one `/k8s-deploy` call: how often
`load_kube_config_from_dict` ran, how many SDK API clients (`AppsV1Api`,
and in fastapi2 also `CoreV1Api`) were constructed, how often
`create_namespaced_deployment` was issued, and the manifest bodies passed
to it. -/
structure K8sTrace where
  loadConfigCalls : Nat
  clientConstructions : Nat
  createDeploymentCalls : Nat
  createDeploymentBodies : List V1Deployment
deriving Repr, DecidableEq

def emptyK8sTrace : K8sTrace := ⟨0, 0, 0, []⟩

/-- The deployment manifest built at lines 48-64 of fastapi_k8s_deploy.py;
every field is drawn from `request.details`. -/
def buildK8sDeployment (details : DeploymentDetails) : V1Deployment :=
  { metadata := { name := some (details.cluster_name ++ "-deployment"), labels := none }
    spec :=
      { replicas := 1
        selector := { matchLabels := [("app", details.cluster_name)] }
        template :=
          { metadata := { name := none, labels := some [("app", details.cluster_name)] }
            spec :=
              { containers :=
                  [{ name := details.cluster_name
                     image := details.container_image_url
                     ports := [{ container_port := details.container_port }] }] } } } }

/-- The `except` chain of `deploy_to_k8s` (lines 74-79): pydantic
`ValidationError` to 400, kubernetes `ApiException` to 500 with the
exception's `reason`, anything else to 500 with `str(e)`. -/
def k8sHandleExn (e : PyExn) : HandlerOutcome :=
  match e with
  | .validationError m => .httpError 400 ("Validation error: " ++ m)
  | .apiException reason => .httpError 500 ("Kubernetes API error: " ++ reason)
  | e => .httpError 500 ("Unexpected error: " ++ e.msg)

/-- The `/k8s-deploy` handler body of fastapi_k8s_deploy.py (lines 41-79):
decode the kubeconfig, load it, build the manifest, construct `AppsV1Api`,
create the deployment; any exception raised along the way falls into the
`except` chain. -/
def deploy_to_k8s (request : DeploymentRequest) (env : K8sEnv) :
    HandlerOutcome × K8sTrace :=
  match env.decodeResult with
  | .error e => (k8sHandleExn e, emptyK8sTrace)
  | .ok _kubeconfigData =>
    match env.loadConfigResult with
    | .error e => (k8sHandleExn e, { emptyK8sTrace with loadConfigCalls := 1 })
    | .ok _ =>
      let deployment := buildK8sDeployment request.details
      let trace : K8sTrace := ⟨1, 1, 1, [deployment]⟩
      match env.createDeploymentResult with
      | .error e => (k8sHandleExn e, trace)
      | .ok _ =>
        (.ok [("status", "success"), ("message", "Deployment created successfully")], trace)

/-- The full `/k8s-deploy` endpoint: FastAPI parses/validates the body with
pydantic before invoking the handler; a validation failure yields the
automatic 422 response and the handler never runs. -/
def deployToK8sEndpoint (raw : DeploymentRequest) (env : K8sEnv) :
    HandlerOutcome × K8sTrace :=
  match parseDeploymentRequest raw with
  | .error errs => (.httpError 422 (renderFieldErrors errs), emptyK8sTrace)
  | .ok request => deploy_to_k8s request env

/-! ### fastapi_k8s_deploy.py: the /ecs-deploy handler -/

/-- Outcomes of the external calls made by `deploy_to_ecs`, in source order:
`boto3.client` construction, `register_task_definition` (returns the
response whose `taskDefinitionArn` the handler reads), `create_service`. -/
structure EcsEnv where
  clientResult : Except PyExn Unit
  registerResult : Except PyExn RegisterTaskDefinitionResponse
  createServiceResult : Except PyExn Unit

/-- Observable effects of one `/ecs-deploy` call in fastapi_k8s_deploy.py. -/
structure EcsTrace where
  clientConstructions : Nat
  registerCalls : Nat
  registerRequests : List RegisterTaskDefinitionRequest
  createServiceCalls : Nat
  createServiceRequests : List CreateServiceRequest
deriving Repr, DecidableEq

def emptyEcsTrace : EcsTrace := ⟨0, 0, [], 0, []⟩

/-- The `register_task_definition` keyword arguments built at lines 93-108;
every field is drawn from `request.details`. -/
def buildRegisterTaskDefinitionRequest (details : ECSDeploymentDetails) :
    RegisterTaskDefinitionRequest :=
  { family := details.task_definition_name
    containerDefinitions :=
      [{ name := details.service_name
         image := details.container_image_url
         portMappings :=
           [{ containerPort := details.container_port
              hostPort := details.container_port
              protocol := "tcp" }] }] }

/-- The `create_service` keyword arguments built at lines 111-123; `arn` is
`task_definition["taskDefinition"]["taskDefinitionArn"]` from the response
of the preceding `register_task_definition` call. -/
def buildCreateServiceRequest (details : ECSDeploymentDetails) (arn : String) :
    CreateServiceRequest :=
  { cluster := details.cluster_name
    serviceName := details.service_name
    taskDefinition := arn
    desiredCount := 1
    launchType := "EC2"
    networkConfiguration :=
      { awsvpcConfiguration := { subnets := [], assignPublicIp := "ENABLED" } } }

/-- The `except` chain of `deploy_to_ecs` (lines 127-130): botocore errors
to 500 with an "AWS SDK error" detail, anything else to 500 with
"Unexpected error". -/
def ecsHandleExn (e : PyExn) : HandlerOutcome :=
  match e with
  | .botoError m => .httpError 500 ("AWS SDK error: " ++ m)
  | e => .httpError 500 ("Unexpected error: " ++ e.msg)

/-- The `/ecs-deploy` handler body of fastapi_k8s_deploy.py (lines 82-130):
construct the boto3 client, register the task definition, then create the
service with the ARN returned by the registration; the two platform calls
are sequential and an exception anywhere falls into the `except` chain. -/
def deploy_to_ecs (request : ECSDeploymentRequest) (env : EcsEnv) :
    HandlerOutcome × EcsTrace :=
  match env.clientResult with
  | .error e => (ecsHandleExn e, emptyEcsTrace)
  | .ok _ =>
    let regReq := buildRegisterTaskDefinitionRequest request.details
    match env.registerResult with
    | .error e => (ecsHandleExn e, ⟨1, 1, [regReq], 0, []⟩)
    | .ok task_definition =>
      let arn := task_definition.taskDefinition.taskDefinitionArn
      let svcReq := buildCreateServiceRequest request.details arn
      let trace : EcsTrace := ⟨1, 1, [regReq], 1, [svcReq]⟩
      match env.createServiceResult with
      | .error e => (ecsHandleExn e, trace)
      | .ok _ =>
        (.ok [("status", "success"), ("message", "ECS deployment created successfully")], trace)

/-- The full `/ecs-deploy` endpoint of fastapi_k8s_deploy.py with FastAPI's
pydantic parsing in front of the handler. -/
def deployToEcsEndpoint (raw : ECSDeploymentRequest) (env : EcsEnv) :
    HandlerOutcome × EcsTrace :=
  match parseECSDeploymentRequest raw with
  | .error errs => (.httpError 422 (renderFieldErrors errs), emptyEcsTrace)
  | .ok request => deploy_to_ecs request env

/-! ### fastapi2.py: request models

Neither model constrains its fields beyond their types: `port` is a bare
`int` and every other field a bare `str`, so any well-typed body parses. -/

structure K8sDeployRequest where
  kubeconfig : String
  cluster_name : String
  region : String
  container_image : String
  port : Int
deriving Repr, DecidableEq

structure EcsDeployRequest where
  aws_access_key_id : String
  aws_secret_access_key : String
  cluster_name : String
  container_image : String
  port : Int
deriving Repr, DecidableEq

/-- FastAPI parsing of a `/k8s-deploy` body in fastapi2.py: the model has no
field constraints, so parsing always succeeds. -/
def parseK8sDeployRequest (raw : K8sDeployRequest) :
    Except (List FieldError) K8sDeployRequest :=
  Except.ok raw

/-- FastAPI parsing of an `/ecs-deploy` body in fastapi2.py: the model has no
field constraints, so parsing always succeeds. -/
def parseEcsDeployRequest (raw : EcsDeployRequest) :
    Except (List FieldError) EcsDeployRequest :=
  Except.ok raw

/-! ### fastapi2.py: the /k8s-deploy handler -/

/-- Outcomes of the external calls made by fastapi2's `k8s_deploy`:
`config.load_kube_config(config_file=...)` and
`apps_v1.create_namespaced_deployment`. -/
structure F2K8sEnv where
  loadConfigResult : Except PyExn Unit
  createDeploymentResult : Except PyExn Unit

/-- The deployment manifest built at lines 28-46 of fastapi2.py; the raw
`metadata` dict of the pod template carries only a `labels` key. -/
def buildF2K8sDeployment (request : K8sDeployRequest) : V1Deployment :=
  { metadata := { name := some request.cluster_name, labels := none }
    spec :=
      { replicas := 1
        selector := { matchLabels := [("app", request.cluster_name)] }
        template :=
          { metadata := { name := none, labels := some [("app", request.cluster_name)] }
            spec :=
              { containers :=
                  [{ name := request.cluster_name
                     image := request.container_image
                     ports := [{ container_port := request.port }] }] } } } }

/-- The `/k8s-deploy` handler body of fastapi2.py (lines 24-51): load the
kubeconfig file, construct `CoreV1Api`, build the manifest, construct
`AppsV1Api`, create the deployment; any exception is converted by the single
`except Exception` clause into `HTTPException(400, str(e))`. -/
def k8s_deploy (request : K8sDeployRequest) (env : F2K8sEnv) :
    HandlerOutcome × K8sTrace :=
  match env.loadConfigResult with
  | .error e => (.httpError 400 e.msg, { emptyK8sTrace with loadConfigCalls := 1 })
  | .ok _ =>
    let deployment := buildF2K8sDeployment request
    let trace : K8sTrace := ⟨1, 2, 1, [deployment]⟩
    match env.createDeploymentResult with
    | .error e => (.httpError 400 e.msg, trace)
    | .ok _ => (.ok [("message", "Deployment successful")], trace)

/-! ### fastapi2.py: the /ecs-deploy handler -/

/-- Outcomes of the external calls of fastapi2's `ecs_deploy`: `boto3.client`
construction and `run_task` (whose raw response, echoed into the success
body, is modelled as a string payload). -/
structure RunTaskEnv where
  clientResult : Except PyExn Unit
  runTaskResult : Except PyExn String

/-- Observable effects of one `/ecs-deploy` call in fastapi2.py. -/
structure RunTaskTrace where
  clientConstructions : Nat
  runTaskCalls : Nat
  runTaskRequests : List RunTaskRequest
deriving Repr, DecidableEq

def emptyRunTaskTrace : RunTaskTrace := ⟨0, 0, []⟩

/-- `str(e)` of the `AttributeError` raised when the handler evaluates
`request.region`: `EcsDeployRequest` declares no `region` field, so pydantic
model attribute lookup fails.  (The Python message quotes the class and
attribute names; the quote characters are elided here.) -/
def ecsRegionAttributeErrorMsg : String :=
  "EcsDeployRequest object has no attribute region"

/-- Attribute access `request.region` on fastapi2's `EcsDeployRequest`: the
model defines no such field, so the access raises `AttributeError`. -/
def EcsDeployRequest.region (_ : EcsDeployRequest) : Except PyExn String :=
  Except.error (PyExn.other ecsRegionAttributeErrorMsg)

/-- The `run_task` keyword arguments built at lines 62-81 of fastapi2.py. -/
def buildRunTaskRequest (request : EcsDeployRequest) : RunTaskRequest :=
  { cluster := request.cluster_name
    taskDefinition := request.container_image
    launchType := "FARGATE"
    overrides :=
      { containerOverrides :=
          [{ name := request.cluster_name
             image := request.container_image
             portMappings :=
               [{ containerPort := request.port
                  hostPort := request.port
                  protocol := "tcp" }] }] } }

/-- The `/ecs-deploy` handler body of fastapi2.py (lines 54-84): evaluating
the `boto3.client` keyword arguments reads `request.region`, which raises
`AttributeError` before the client is constructed; if it did return, the
client would be built and `run_task` issued.  Any exception is converted by
`except Exception` into `HTTPException(400, str(e))`. -/
def ecs_deploy (request : EcsDeployRequest) (env : RunTaskEnv) :
    HandlerOutcome × RunTaskTrace :=
  match request.region with
  | .error e => (.httpError 400 e.msg, emptyRunTaskTrace)
  | .ok _region =>
    match env.clientResult with
    | .error e => (.httpError 400 e.msg, emptyRunTaskTrace)
    | .ok _ =>
      let req := buildRunTaskRequest request
      let trace : RunTaskTrace := ⟨1, 1, [req]⟩
      match env.runTaskResult with
      | .error e => (.httpError 400 e.msg, trace)
      | .ok response =>
        (.ok [("message", "Deployment successful"), ("response", response)], trace)

/-- The full `/k8s-deploy` endpoint of fastapi2.py (parsing, then handler). -/
def k8sDeployEndpoint2 (raw : K8sDeployRequest) (env : F2K8sEnv) :
    HandlerOutcome × K8sTrace :=
  match parseK8sDeployRequest raw with
  | .error errs => (.httpError 422 (renderFieldErrors errs), emptyK8sTrace)
  | .ok request => k8s_deploy request env

/-- The full `/ecs-deploy` endpoint of fastapi2.py (parsing, then handler). -/
def ecsDeployEndpoint2 (raw : EcsDeployRequest) (env : RunTaskEnv) :
    HandlerOutcome × RunTaskTrace :=
  match parseEcsDeployRequest raw with
  | .error errs => (.httpError 422 (renderFieldErrors errs), emptyRunTaskTrace)
  | .ok request => ecs_deploy request env

/-! ### Derived observations and concrete fixtures -/

/-- HTTP status of an outcome (a 200 body or the `HTTPException` status). -/
def statusOf : HandlerOutcome → Nat
  | .ok _ => 200
  | .httpError s _ => s

/-- An outcome is either a 200 success body or an error response whose
status lies in the HTTP error range [400, 600). -/
def isBoundedErrorOrOk : HandlerOutcome → Bool
  | .ok _ => true
  | .httpError s _ => decide (400 ≤ s) && decide (s < 600)

/-- Environment in which every external call of `/k8s-deploy`
(fastapi_k8s_deploy.py) succeeds. -/
def okK8sEnv : K8sEnv :=
  ⟨Except.ok "apiVersion: v1", Except.ok (), Except.ok ()⟩

/-- Environment in which every external call of `/ecs-deploy`
(fastapi_k8s_deploy.py) succeeds. -/
def okEcsEnv : EcsEnv :=
  ⟨Except.ok (), Except.ok ⟨⟨"arn:aws:ecs:us-east-1:1234:task-definition/web:1"⟩⟩,
    Except.ok ()⟩

/-- Environment in which every external call of fastapi2's handlers
succeeds. -/
def okF2K8sEnv : F2K8sEnv := ⟨Except.ok (), Except.ok ()⟩

def okRunTaskEnv : RunTaskEnv := ⟨Except.ok (), Except.ok "tasks started"⟩

/-- A well-formed `/k8s-deploy` request body for fastapi_k8s_deploy.py. -/
def sampleDetails : DeploymentDetails :=
  ⟨"web", "us-east-1", "http://registry.example.com/nginx", 8080⟩

def sampleK8sRequest : DeploymentRequest := ⟨⟨"YXBpVmVyc2lvbjogdjE="⟩, sampleDetails⟩

/-- A well-formed `/ecs-deploy` request body for fastapi_k8s_deploy.py. -/
def sampleEcsDetails : ECSDeploymentDetails :=
  ⟨"web-cluster", "web-svc", "web-task", "us-east-1",
    "http://registry.example.com/nginx", 8080⟩

def sampleEcsRequest : ECSDeploymentRequest := ⟨⟨"AKIAEXAMPLE", "SECRETEXAMPLE"⟩, sampleEcsDetails⟩

/-- A fastapi2 `/k8s-deploy` body whose port 70000 lies outside [1, 65535]. -/
def c2Request70000 : K8sDeployRequest :=
  ⟨"kubeconfig-path", "web", "us-east-1", "nginx-image", 70000⟩

/-- A fastapi_k8s_deploy.py `/k8s-deploy` body with port 70000 and an
otherwise valid payload. -/
def c2BadPortRequest : DeploymentRequest :=
  ⟨⟨"YXBpVmVyc2lvbjogdjE="⟩, ⟨"web", "us-east-1", "http://registry.example.com/nginx", 70000⟩⟩

/-- A `/k8s-deploy` body whose kubeconfig blob "aGVsbG8" has 7 base64 data
characters, so `base64.b64decode` raises `binascii.Error("Incorrect padding")`. -/
def c4BadBlobRequest : DeploymentRequest := ⟨⟨"aGVsbG8"⟩, sampleDetails⟩

/-- Environment observed for `c4BadBlobRequest`: the decode step raises and
nothing downstream is reached. -/
def c4Env : K8sEnv :=
  ⟨Except.error (PyExn.other "Incorrect padding"), Except.ok (), Except.ok ()⟩

/-- Environment in which `register_task_definition` raises a botocore
transport error. -/
def c5Env : EcsEnv :=
  ⟨Except.ok (),
    Except.error (PyExn.botoError "Could not connect to the endpoint URL"),
    Except.ok ()⟩

/-- Two `/k8s-deploy` requests identical except for the credential blob. -/
def c6RequestA : DeploymentRequest := ⟨⟨"Y3JlZGVudGlhbC1vbmU="⟩, sampleDetails⟩

def c6RequestB : DeploymentRequest := ⟨⟨"Y3JlZGVudGlhbC10d28="⟩, sampleDetails⟩

/-- A `/k8s-deploy` body whose cluster name is empty. -/
def c8EmptyNameRequest : DeploymentRequest :=
  ⟨⟨"YXBpVmVyc2lvbjogdjE="⟩, ⟨"", "us-east-1", "http://registry.example.com/nginx", 8080⟩⟩

/-- A `/k8s-deploy` body whose cluster name has uppercase letters, `_` and
`!`, and is 72 characters long (over the 63-character cap). -/
def c8BadNameRequest : DeploymentRequest :=
  ⟨⟨"YXBpVmVyc2lvbjogdjE="⟩,
    ⟨"AAAAAAAAAAAAAAAAAAAAAAAAAAAAAAAAAAAAAAAAAAAAAAAAAAAAAAAAAAAAAAAAAAAA_!",
      "us-east-1", "http://registry.example.com/nginx", 8080⟩⟩

/-! ## Theorems -/

/-- Claim C1: for every deployment request reaching the Kubernetes
translation step, in either module, the produced manifest's selector
`matchLabels` and its pod-template labels are the identical one-entry map
sending "app" to the request's cluster name, both derived from that single
source value. -/
theorem k8s_selector_equals_pod_labels :
    ∀ (d : DeploymentDetails) (r : K8sDeployRequest),
      (buildK8sDeployment d).spec.selector.matchLabels = [("app", d.cluster_name)] ∧
      (buildK8sDeployment d).spec.template.metadata.labels =
        some (buildK8sDeployment d).spec.selector.matchLabels ∧
      (buildF2K8sDeployment r).spec.selector.matchLabels = [("app", r.cluster_name)] ∧
      (buildF2K8sDeployment r).spec.template.metadata.labels =
        some (buildF2K8sDeployment r).spec.selector.matchLabels := by
  intro d r
  exact ⟨rfl, rfl, rfl, rfl⟩

/-- Claim C7: every ECS translation produces exactly one container
definition holding exactly one port mapping, whose container port and host
port both equal the request's port, with protocol "tcp" — in the
task-definition registration of fastapi_k8s_deploy.py and in the run-task
container overrides of fastapi2.py. -/
theorem ecs_port_mapping_one_to_one :
    ∀ (d : ECSDeploymentDetails) (r : EcsDeployRequest),
      (buildRegisterTaskDefinitionRequest d).containerDefinitions.map
          ContainerDefinition.portMappings =
        [[{ containerPort := d.container_port, hostPort := d.container_port,
            protocol := "tcp" }]] ∧
      (buildRunTaskRequest r).overrides.containerOverrides.map
          ContainerOverride.portMappings =
        [[{ containerPort := r.port, hostPort := r.port, protocol := "tcp" }]] := by
  intro d r
  exact ⟨rfl, rfl⟩

/-- Claim C10: every fastapi2 `/ecs-deploy` call that passes request parsing
returns HTTP 400 — the handler reads `request.region`, which the
`EcsDeployRequest` model does not define, so the `AttributeError` is caught
by the generic handler — and neither the boto3 client construction nor any
`run_task` call ever happens. -/
theorem ecs_deploy_always_400_without_run_task :
    ∀ (raw : EcsDeployRequest) (env : RunTaskEnv),
      (ecsDeployEndpoint2 raw env).1 =
        HandlerOutcome.httpError 400 ecsRegionAttributeErrorMsg ∧
      (ecsDeployEndpoint2 raw env).2.runTaskCalls = 0 ∧
      (ecsDeployEndpoint2 raw env).2.clientConstructions = 0 := by
  intro raw env
  exact ⟨rfl, rfl, rfl⟩

/-- Claim C4, counterexample: a `/k8s-deploy` request whose kubeconfig blob
is not valid base64 is answered with HTTP 500 from the generic
"Unexpected error" handler, not with the claimed 400. -/
theorem malformed_base64_yields_500_not_400 :
    (deploy_to_k8s c4BadBlobRequest c4Env).1 =
      HandlerOutcome.httpError 500 ("Unexpected error: Incorrect padding") ∧
    statusOf (deploy_to_k8s c4BadBlobRequest c4Env).1 ≠ 400 := by
  exact ⟨rfl, by decide⟩

/-- Claim C4, amended: a base64 decode failure falls into the catch-all
`except Exception` clause, producing HTTP 500 with detail
"Unexpected error: " followed by the exception's own message; no kube
client is constructed and no platform call is made; and the response is
identical for any two requests under the same failing environment, so the
raw config blob is never embedded in the message. -/
theorem malformed_base64_generic_500 :
    ∀ (request request2 : DeploymentRequest) (env : K8sEnv) (msg : String),
      env.decodeResult = Except.error (PyExn.other msg) →
      (deploy_to_k8s request env).1 =
        HandlerOutcome.httpError 500 ("Unexpected error: " ++ msg) ∧
      (deploy_to_k8s request env).2 = emptyK8sTrace ∧
      deploy_to_k8s request env = deploy_to_k8s request2 env := by
  intro request request2 env msg h
  simp [deploy_to_k8s, h, k8sHandleExn, PyExn.msg]

/-- Witness for `malformed_base64_generic_500` at the concrete bad-blob
request and failing environment. -/
theorem malformed_base64_generic_500_witness :
    (deploy_to_k8s c4BadBlobRequest c4Env).1 =
      HandlerOutcome.httpError 500 ("Unexpected error: " ++ "Incorrect padding") ∧
    (deploy_to_k8s c4BadBlobRequest c4Env).2 = emptyK8sTrace ∧
    deploy_to_k8s c4BadBlobRequest c4Env = deploy_to_k8s sampleK8sRequest c4Env :=
  malformed_base64_generic_500 c4BadBlobRequest sampleK8sRequest c4Env
    "Incorrect padding" rfl

/-- Claim C5, counterexample: a transport-level botocore failure during
task-definition registration is answered with HTTP 500 ("AWS SDK error"),
not with the claimed 503, though the service-creation call count is indeed
zero. -/
theorem transport_failure_yields_500_not_503 :
    (deploy_to_ecs sampleEcsRequest c5Env).1 =
      HandlerOutcome.httpError 500
        ("AWS SDK error: Could not connect to the endpoint URL") ∧
    statusOf (deploy_to_ecs sampleEcsRequest c5Env).1 ≠ 503 ∧
    (deploy_to_ecs sampleEcsRequest c5Env).2.createServiceCalls = 0 := by
  exact ⟨rfl, by decide, rfl⟩

/-- Claim C5, amended: when the boto3 client was constructed and
`register_task_definition` raises a botocore error (the transport-failure
class), the dispatcher answers HTTP 500 with an "AWS SDK error" detail and
never issues the `create_service` call. -/
theorem transport_failure_maps_to_500 :
    ∀ (request : ECSDeploymentRequest) (env : EcsEnv) (msg : String),
      env.clientResult = Except.ok () →
      env.registerResult = Except.error (PyExn.botoError msg) →
      (deploy_to_ecs request env).1 =
        HandlerOutcome.httpError 500 ("AWS SDK error: " ++ msg) ∧
      (deploy_to_ecs request env).2.createServiceCalls = 0 := by
  intro request env msg hc hr
  simp [deploy_to_ecs, hc, hr, ecsHandleExn]

/-- Witness for `transport_failure_maps_to_500` at the concrete failing
environment. -/
theorem transport_failure_maps_to_500_witness :
    (deploy_to_ecs sampleEcsRequest c5Env).1 =
      HandlerOutcome.httpError 500
        ("AWS SDK error: " ++ "Could not connect to the endpoint URL") ∧
    (deploy_to_ecs sampleEcsRequest c5Env).2.createServiceCalls = 0 :=
  transport_failure_maps_to_500 sampleEcsRequest c5Env
    "Could not connect to the endpoint URL" rfl rfl

/-- Claim C3: the ECS dispatch path is strictly sequential — if the
task-definition registration raises, the `create_service` call count is
zero; and whenever `create_service` is issued at all, the registration ran
exactly once, succeeded, and the service request was built from the ARN
returned by that registration. -/
theorem ecs_register_then_create_service :
    (∀ (request : ECSDeploymentRequest) (env : EcsEnv) (e : PyExn),
       env.registerResult = Except.error e →
       (deploy_to_ecs request env).2.createServiceCalls = 0) ∧
    (∀ (request : ECSDeploymentRequest) (env : EcsEnv),
       1 ≤ (deploy_to_ecs request env).2.createServiceCalls →
       (deploy_to_ecs request env).2.registerCalls = 1 ∧
       ∃ td, env.registerResult = Except.ok td ∧
         (deploy_to_ecs request env).2.createServiceRequests =
           [buildCreateServiceRequest request.details
             td.taskDefinition.taskDefinitionArn]) := by
  constructor
  · intro request env e hr
    obtain ⟨cRes, rRes, sRes⟩ := env
    cases cRes with
    | error e0 => simp [deploy_to_ecs, emptyEcsTrace]
    | ok u => simp_all [deploy_to_ecs]
  · intro request env hcount
    obtain ⟨cRes, rRes, sRes⟩ := env
    cases cRes with
    | error e0 => simp [deploy_to_ecs, emptyEcsTrace] at hcount
    | ok u =>
      cases rRes with
      | error e1 => simp [deploy_to_ecs] at hcount
      | ok td =>
        cases sRes with
        | error e2 => exact ⟨by simp [deploy_to_ecs], td, rfl, by simp [deploy_to_ecs]⟩
        | ok v => exact ⟨by simp [deploy_to_ecs], td, rfl, by simp [deploy_to_ecs]⟩

/-- Witness for `ecs_register_then_create_service` (first conjunct) at the
concrete environment whose registration raises a transport error. -/
theorem ecs_register_then_create_service_witness :
    (deploy_to_ecs sampleEcsRequest c5Env).2.createServiceCalls = 0 :=
  ecs_register_then_create_service.1 sampleEcsRequest c5Env
    (PyExn.botoError "Could not connect to the endpoint URL") rfl

/-- Claim C6: credentials never reach the translated workload objects or the
returned result — for a fixed environment, the entire outcome and trace
(including every built manifest, task-definition request, and
service-creation request) of each handler depend only on the details
fields, so two requests differing only in credentials behave identically. -/
theorem credentials_never_in_workloads :
    (∀ (r1 r2 : DeploymentRequest) (env : K8sEnv),
       r1.details = r2.details →
       deploy_to_k8s r1 env = deploy_to_k8s r2 env) ∧
    (∀ (r1 r2 : ECSDeploymentRequest) (env : EcsEnv),
       r1.details = r2.details →
       deploy_to_ecs r1 env = deploy_to_ecs r2 env) ∧
    (∀ (r1 r2 : K8sDeployRequest) (env : F2K8sEnv),
       r1.cluster_name = r2.cluster_name → r1.region = r2.region →
       r1.container_image = r2.container_image → r1.port = r2.port →
       k8s_deploy r1 env = k8s_deploy r2 env) := by
  refine ⟨?_, ?_, ?_⟩
  · intro r1 r2 env h
    simp only [deploy_to_k8s, h]
  · intro r1 r2 env h
    simp only [deploy_to_ecs, h]
  · intro r1 r2 env h1 h2 h3 h4
    simp only [k8s_deploy, buildF2K8sDeployment, h1, h2, h3, h4]

/-- Witness for `credentials_never_in_workloads` (first conjunct): two
requests identical except for the kubeconfig blob produce the same outcome
and trace. -/
theorem credentials_never_in_workloads_witness :
    deploy_to_k8s c6RequestA okK8sEnv = deploy_to_k8s c6RequestB okK8sEnv :=
  credentials_never_in_workloads.1 c6RequestA c6RequestB okK8sEnv rfl

/-- Claim C2, counterexample: in fastapi2.py the port field is an
unconstrained int, so a port of 70000 (outside [1, 65535]) passes request
parsing with no validation error, and with a healthy environment the
`/k8s-deploy` handler constructs both SDK API clients and issues the
create-deployment network call. -/
theorem port70000_reaches_platform_in_fastapi2 :
    (65535 : Int) < 70000 ∧
    parseK8sDeployRequest c2Request70000 = Except.ok c2Request70000 ∧
    (k8sDeployEndpoint2 c2Request70000 okF2K8sEnv).2.clientConstructions = 2 ∧
    (k8sDeployEndpoint2 c2Request70000 okF2K8sEnv).2.createDeploymentCalls = 1 := by
  exact ⟨by decide, rfl, rfl, rfl⟩

/-- An out-of-range port falsifies the pydantic `Field(gt=0, lt=65536)`
bound. -/
theorem portFieldValid_false_of_out_of_range (p : Int)
    (h : p < 1 ∨ 65535 < p) : portFieldValid p = false := by
  rcases h with h | h
  · have h0 : decide (0 < p) = false := decide_eq_false (by omega)
    simp [portFieldValid, h0]
  · have h0 : decide (p < 65536) = false := decide_eq_false (by omega)
    simp [portFieldValid, h0]

/-- When the port bound fails, pydantic validation of `DeploymentDetails`
reports at least one field error. -/
theorem validateDeploymentDetails_ne_nil (d : DeploymentDetails)
    (h : portFieldValid d.container_port = false) :
    validateDeploymentDetails d ≠ [] := by
  unfold validateDeploymentDetails
  cases hu : httpUrlValid d.container_image_url <;> simp [hu, h]

/-- When the port bound fails, pydantic validation of `ECSDeploymentDetails`
reports at least one field error. -/
theorem validateECSDeploymentDetails_ne_nil (d : ECSDeploymentDetails)
    (h : portFieldValid d.container_port = false) :
    validateECSDeploymentDetails d ≠ [] := by
  unfold validateECSDeploymentDetails
  cases hu : httpUrlValid d.container_image_url <;> simp [hu, h]

/-- A `/k8s-deploy` body whose validation reports errors is refused by
FastAPI with the full error list. -/
theorem parseDeploymentRequest_error (raw : DeploymentRequest)
    (h : validateDeploymentDetails raw.details ≠ []) :
    parseDeploymentRequest raw =
      Except.error (validateDeploymentDetails raw.details) := by
  unfold parseDeploymentRequest
  cases hv : validateDeploymentDetails raw.details with
  | nil => exact absurd hv h
  | cons a l => rfl

/-- An `/ecs-deploy` body whose validation reports errors is refused by
FastAPI with the full error list. -/
theorem parseECSDeploymentRequest_error (raw : ECSDeploymentRequest)
    (h : validateECSDeploymentDetails raw.details ≠ []) :
    parseECSDeploymentRequest raw =
      Except.error (validateECSDeploymentDetails raw.details) := by
  unfold parseECSDeploymentRequest
  cases hv : validateECSDeploymentDetails raw.details with
  | nil => exact absurd hv h
  | cons a l => rfl

/-- Claim C2, amended: in fastapi_k8s_deploy.py (whose models carry
`Field(gt=0, lt=65536)`), every request with a port outside [1, 65535] is
rejected by pydantic with a validation error before the handler runs, so no
platform client is constructed and no network call issued, on both the
`/k8s-deploy` and `/ecs-deploy` endpoints; the fastapi2.py endpoints do not
validate the port. -/
theorem out_of_range_port_rejected_before_client :
    (∀ (raw : DeploymentRequest) (env : K8sEnv),
       (raw.details.container_port < 1 ∨ 65535 < raw.details.container_port) →
       (deployToK8sEndpoint raw env).1 =
         HandlerOutcome.httpError 422
           (renderFieldErrors (validateDeploymentDetails raw.details)) ∧
       (deployToK8sEndpoint raw env).2 = emptyK8sTrace) ∧
    (∀ (raw : ECSDeploymentRequest) (env : EcsEnv),
       (raw.details.container_port < 1 ∨ 65535 < raw.details.container_port) →
       (deployToEcsEndpoint raw env).1 =
         HandlerOutcome.httpError 422
           (renderFieldErrors (validateECSDeploymentDetails raw.details)) ∧
       (deployToEcsEndpoint raw env).2 = emptyEcsTrace) := by
  constructor
  · intro raw env h
    have hparse := parseDeploymentRequest_error raw
      (validateDeploymentDetails_ne_nil raw.details
        (portFieldValid_false_of_out_of_range raw.details.container_port h))
    constructor <;> · unfold deployToK8sEndpoint; rw [hparse]
  · intro raw env h
    have hparse := parseECSDeploymentRequest_error raw
      (validateECSDeploymentDetails_ne_nil raw.details
        (portFieldValid_false_of_out_of_range raw.details.container_port h))
    constructor <;> · unfold deployToEcsEndpoint; rw [hparse]

/-- Witness for `out_of_range_port_rejected_before_client` (first conjunct)
at the concrete request carrying port 70000. -/
theorem out_of_range_port_rejected_before_client_witness :
    (deployToK8sEndpoint c2BadPortRequest okK8sEnv).1 =
      HandlerOutcome.httpError 422
        (renderFieldErrors (validateDeploymentDetails c2BadPortRequest.details)) ∧
    (deployToK8sEndpoint c2BadPortRequest okK8sEnv).2 = emptyK8sTrace :=
  out_of_range_port_rejected_before_client.1 c2BadPortRequest okK8sEnv
    (Or.inr (by decide))

/-- Claim C8, counterexample: the name fields carry no pydantic constraint,
so both a request whose cluster name is empty and one whose cluster name has
uppercase letters, `_`, `!` and 72 characters pass validation, and the
handler proceeds all the way to the platform call. -/
theorem invalid_names_accepted_by_validation :
    parseDeploymentRequest c8EmptyNameRequest = Except.ok c8EmptyNameRequest ∧
    (deployToK8sEndpoint c8EmptyNameRequest okK8sEnv).2.createDeploymentCalls = 1 ∧
    parseDeploymentRequest c8BadNameRequest = Except.ok c8BadNameRequest ∧
    (deployToK8sEndpoint c8BadNameRequest okK8sEnv).2.createDeploymentCalls = 1 := by
  exact ⟨rfl, rfl, rfl, rfl⟩

/-- Claim C8, amended: neither module validates the name identifiers at
all — pydantic validation reads only the image URL and the port, never a
name field, so replacing the names of any request by arbitrary strings
(empty, wrong charset, or longer than 63 characters alike) leaves the
validation outcome unchanged; any request whose URL and port pass parses
regardless of its names, and fastapi2 requests always parse. -/
theorem names_not_validated :
    (∀ (d : DeploymentDetails) (name : String),
       validateDeploymentDetails { d with cluster_name := name } =
         validateDeploymentDetails d) ∧
    (∀ (d : ECSDeploymentDetails) (cname sname tname : String),
       validateECSDeploymentDetails { d with cluster_name := cname, service_name := sname, task_definition_name := tname } =
         validateECSDeploymentDetails d) ∧
    (∀ (raw : DeploymentRequest),
       validateDeploymentDetails raw.details = [] →
       parseDeploymentRequest raw = Except.ok raw) ∧
    (∀ (raw : K8sDeployRequest), parseK8sDeployRequest raw = Except.ok raw) := by
  refine ⟨?_, ?_, ?_, ?_⟩
  · intro d name
    rfl
  · intro d cname sname tname
    rfl
  · intro raw h
    unfold parseDeploymentRequest
    rw [h]
  · intro raw
    rfl

/-- Witness for `names_not_validated` (third conjunct): the request whose
cluster name is the empty string passes validation and parses. -/
theorem names_not_validated_witness :
    parseDeploymentRequest c8EmptyNameRequest = Except.ok c8EmptyNameRequest :=
  names_not_validated.2.2.1 c8EmptyNameRequest rfl

/-- Every branch of the `/k8s-deploy` except chain lands in [400, 600). -/
theorem isBounded_k8sHandleExn (e : PyExn) :
    isBoundedErrorOrOk (k8sHandleExn e) = true := by
  cases e <;> rfl

/-- Every branch of the `/ecs-deploy` except chain lands in [400, 600). -/
theorem isBounded_ecsHandleExn (e : PyExn) :
    isBoundedErrorOrOk (ecsHandleExn e) = true := by
  cases e <;> rfl

/-- Claim C9: every endpoint, on every input and every combination of
external-call outcomes, returns either a 200 success body or an HTTP error
response (status in [400, 600)) carrying a detail string — exceptions at
any stage are converted at the request boundary, never propagated.  The
handlers are total functions of the request and environment, so no input
crashes them. -/
theorem every_failure_becomes_bounded_http_error :
    (∀ (raw : DeploymentRequest) (env : K8sEnv),
       isBoundedErrorOrOk (deployToK8sEndpoint raw env).1 = true) ∧
    (∀ (raw : ECSDeploymentRequest) (env : EcsEnv),
       isBoundedErrorOrOk (deployToEcsEndpoint raw env).1 = true) ∧
    (∀ (raw : K8sDeployRequest) (env : F2K8sEnv),
       isBoundedErrorOrOk (k8sDeployEndpoint2 raw env).1 = true) ∧
    (∀ (raw : EcsDeployRequest) (env : RunTaskEnv),
       isBoundedErrorOrOk (ecsDeployEndpoint2 raw env).1 = true) := by
  refine ⟨?_, ?_, ?_, ?_⟩
  · intro raw env
    unfold deployToK8sEndpoint
    cases hp : parseDeploymentRequest raw with
    | error errs => rfl
    | ok r =>
      obtain ⟨dRes, lRes, cRes⟩ := env
      cases dRes with
      | error e => exact isBounded_k8sHandleExn e
      | ok s =>
        cases lRes with
        | error e => exact isBounded_k8sHandleExn e
        | ok u =>
          cases cRes with
          | error e => exact isBounded_k8sHandleExn e
          | ok u2 => rfl
  · intro raw env
    unfold deployToEcsEndpoint
    cases hp : parseECSDeploymentRequest raw with
    | error errs => rfl
    | ok r =>
      obtain ⟨cRes, rRes, sRes⟩ := env
      cases cRes with
      | error e => exact isBounded_ecsHandleExn e
      | ok u =>
        cases rRes with
        | error e => exact isBounded_ecsHandleExn e
        | ok td =>
          cases sRes with
          | error e => exact isBounded_ecsHandleExn e
          | ok u2 => rfl
  · intro raw env
    obtain ⟨lRes, cRes⟩ := env
    cases lRes with
    | error e => rfl
    | ok u =>
      cases cRes with
      | error e => rfl
      | ok u2 => rfl
  · intro raw env
    rfl

end AADeploy
